import Mathlib

/-!
Verification development for the SteamReviewScraper repository
(src/SteamReviewScraper.py).

The Python source is shallowly embedded: JSON-like dynamic Python values
become the inductive type `PyVal`; Python exceptions become the `Except`
monad over `PyErr`; the review normalizer `_normalize_review` and the
cursor-pagination loop of `fetch_all_steam_reviews_for_app` are translated
function by function.  Machine-level aspects that the code does not rely on
(hashing of cursors, float sleep durations, wall-clock timestamps) are
modelled abstractly: the seen-cursor set is a list with Python-equality
membership, the courtesy sleep is an instrumentation counter, and the
timestamp is an opaque string parameter.
-/

/-- A dynamically typed Python/JSON value, as handled by the scraper. -/
inductive PyVal where
  | none
  | bool (b : Bool)
  | int (n : Int)
  | str (s : String)
  | list (xs : List PyVal)
  | dict (d : List (String × PyVal))

/-- Python exceptions that the scraper can raise. `SteamReviewsError` is the
single error class declared in the source; the spec splits its uses into
`TransportError` (HTTP failure message) and `UpstreamError` (success-flag
message), and calls the `ValueError` of the bounds check `ConfigurationError`. -/
inductive PyErr where
  | valueError (msg : String)
  | typeError (msg : String)
  | attributeError (msg : String)
  | steamReviewsError (msg : String)
deriving DecidableEq

/-- A decoded JSON object (Python dict with string keys). -/
abbrev Payload := List (String × PyVal)

/-- First binding of a key in a dict, if any. -/
def lookupField (r : Payload) (k : String) : Option PyVal :=
  (r.find? (fun p => p.1 == k)).map (fun p => p.2)

/-- Python `r.get(k, d)`: the bound value if the key is present, else `d`. -/
def dget (r : Payload) (k : String) (d : PyVal) : PyVal :=
  match lookupField r k with
  | some v => v
  | Option.none => d

/-- Remove every binding of a key (used to state author-absence claims). -/
def eraseKey (r : Payload) (k : String) : Payload :=
  r.filter (fun p => !(p.1 == k))

/-- Python truthiness (`bool(v)`). -/
def pyTruthy : PyVal → Bool
  | .none => false
  | .bool b => b
  | .int n => decide (n ≠ 0)
  | .str s => !s.isEmpty
  | .list xs => !xs.isEmpty
  | .dict d => !d.isEmpty

/-- Python `x or y`: `x` if truthy, else `y`. -/
def pyOr (x y : PyVal) : PyVal :=
  if pyTruthy x then x else y

/-- A single-quote character, used by Python `repr`. -/
def pyQuote : String := String.singleton (Char.ofNat 39)

mutual

/-- Python `repr(v)` (string escaping inside quotes is not modelled). -/
def pyRepr : PyVal → String
  | .none => "None"
  | .bool true => "True"
  | .bool false => "False"
  | .int n => toString n
  | .str s => pyQuote ++ s ++ pyQuote
  | .list xs => "[" ++ pyReprList xs ++ "]"
  | .dict d => "\x7b" ++ pyReprDict d ++ "\x7d"

/-- Comma-separated reprs of list elements. -/
def pyReprList : List PyVal → String
  | [] => ""
  | [x] => pyRepr x
  | x :: xs => pyRepr x ++ ", " ++ pyReprList xs

/-- Comma-separated `'key': value` reprs of dict entries. -/
def pyReprDict : List (String × PyVal) → String
  | [] => ""
  | [(k, v)] => pyQuote ++ k ++ pyQuote ++ ": " ++ pyRepr v
  | (k, v) :: xs => pyQuote ++ k ++ pyQuote ++ ": " ++ pyRepr v ++ ", " ++ pyReprDict xs

end

/-- Python `str(v)`. -/
def pyStr : PyVal → String
  | .str s => s
  | v => pyRepr v

/-- Digits of a decimal literal, or `none` if empty or non-digit. -/
def parseDigits (cs : List Char) : Option Nat :=
  if cs.isEmpty then Option.none
  else if cs.all Char.isDigit then
    some (cs.foldl (fun n c => n * 10 + (c.toNat - 48)) 0)
  else Option.none

/-- An ASCII whitespace character, as stripped by Python `int(str)`. -/
def isPySpace (c : Char) : Bool :=
  c = ' ' || c = '\t' || c = '\n' || c = '\r'

/-- Strip leading and trailing whitespace from a character list. -/
def trimChars (cs : List Char) : List Char :=
  ((cs.dropWhile isPySpace).reverse.dropWhile isPySpace).reverse

/-- Base-10 integer literal accepted by Python `int(str)`: optional
surrounding whitespace, optional sign, nonempty digit run. -/
def parsePyInt (s : String) : Option Int :=
  match trimChars s.toList with
  | [] => Option.none
  | c :: cs =>
    if c = '-' then (parseDigits cs).map (fun n => -(n : Int))
    else if c = '+' then (parseDigits cs).map (fun n => (n : Int))
    else (parseDigits (c :: cs)).map (fun n => (n : Int))

/-- Python `int(v)`: exact on ints and bools, parses numeric strings, raises
`ValueError` on non-numeric strings and `TypeError` on other values. -/
def pyToInt : PyVal → Except PyErr Int
  | .bool b => .ok (if b then 1 else 0)
  | .int n => .ok n
  | .str s =>
    match parsePyInt s with
    | some n => .ok n
    | Option.none =>
      .error (.valueError ("invalid literal for int() with base 10: " ++ pyRepr (.str s)))
  | _ => .error (.typeError "int() argument must be a string, a bytes-like object or a real number")

/-- Using a value as a dict (`v.get(...)`): raises `AttributeError` unless it
actually is a dict. -/
def asDict : PyVal → Except PyErr Payload
  | .dict d => .ok d
  | _ => .error (.attributeError "object has no attribute get")

/-- Iterating over a value (`for r in v`): only lists are modelled as
iterable. -/
def asList : PyVal → Except PyErr (List PyVal)
  | .list xs => .ok xs
  | _ => .error (.typeError "object is not iterable")

mutual

/-- Python `==` on dynamic values: `True == 1`, `False == 0`, otherwise
values of different types are unequal; containers compare elementwise. -/
def pyEq : PyVal → PyVal → Bool
  | .none, .none => true
  | .bool a, .bool b => a == b
  | .bool a, .int n => (if a then (1 : Int) else 0) == n
  | .int n, .bool a => n == (if a then (1 : Int) else 0)
  | .int a, .int b => a == b
  | .str a, .str b => a == b
  | .list a, .list b => pyEqList a b
  | .dict a, .dict b => pyEqDict a b
  | _, _ => false

/-- Elementwise `pyEq` on lists. -/
def pyEqList : List PyVal → List PyVal → Bool
  | [], [] => true
  | a :: as2, b :: bs => pyEq a b && pyEqList as2 bs
  | _, _ => false

/-- Elementwise `pyEq` on dict entry lists. -/
def pyEqDict : List (String × PyVal) → List (String × PyVal) → Bool
  | [], [] => true
  | (k, v) :: as2, (k2, v2) :: bs => k == k2 && pyEq v v2 && pyEqDict as2 bs
  | _, _ => false

end

/-- Python `v in l` for the seen-cursor set, with Python equality. -/
def pyMem (v : PyVal) (l : List PyVal) : Bool :=
  l.any (fun w => pyEq v w)

/-- Python slice `l[:m]`, including the negative-index case. -/
def pyTake {α : Type} (m : Int) (l : List α) : List α :=
  if 0 ≤ m then l.take m.toNat else l.take ((l.length : Int) + m).toNat

/-- `sub` occurs as a contiguous substring of `s`. -/
def strContains (s sub : String) : Prop :=
  ∃ p q, s = p ++ sub ++ q

/-- The fixed output schema of the normalizer (`@dataclass NormalizedReview`).
Field types reflect the values the code actually constructs: `language` and
`review` are copied from the raw record without a `str(...)` conversion, so
they keep the dynamic type `PyVal`. -/
structure NormalizedReview where
  recommendationid : String
  steamid : String
  language : PyVal
  review : PyVal
  voted_up : Bool
  timestamp_created : Int
  timestamp_updated : Int
  author_num_games_owned : Int
  author_num_reviews : Int
  author_playtime_forever : Int
  author_playtime_last_two_weeks : Int
  author_playtime_at_review : Int
  votes_up : Int
  votes_funny : Int
  weighted_vote_score : String
  comment_count : Int
  steam_purchase : Bool
  received_for_free : Bool
  written_during_early_access : Bool

/-- `r.get("author", {}) or {}`: the author sub-value, with falsy values
(including a present `None`) replaced by the empty dict. -/
def authorVal (r : Payload) : PyVal :=
  pyOr (dget r "author" (PyVal.dict [])) (PyVal.dict [])

/-- The entry list of `authorVal r` when it is a dict, `[]` otherwise. -/
def authorDict (r : Payload) : Payload :=
  match authorVal r with
  | .dict d => d
  | _ => []

/-- `_normalize_review(r)`: maps one raw review record to the fixed schema,
propagating the exceptions Python would raise (`int(...)` on a present
non-numeric value, `.get` on a truthy non-dict author). Coercions appear in
the evaluation order of the Python constructor call. -/
def _normalize_review (r : Payload) : Except PyErr NormalizedReview := do
  let recommendationid := pyStr (dget r "recommendationid" (.str ""))
  let a ← asDict (authorVal r)
  let steamid := pyStr (dget a "steamid" (.str ""))
  let language := dget r "language" (.str "")
  let review := dget r "review" (.str "")
  let voted_up := pyTruthy (dget r "voted_up" (.bool false))
  let timestamp_created ← pyToInt (dget r "timestamp_created" (.int 0))
  let timestamp_updated ← pyToInt (dget r "timestamp_updated" (.int 0))
  let author_num_games_owned ← pyToInt (dget a "num_games_owned" (.int 0))
  let author_num_reviews ← pyToInt (dget a "num_reviews" (.int 0))
  let author_playtime_forever ← pyToInt (dget a "playtime_forever" (.int 0))
  let author_playtime_last_two_weeks ← pyToInt (dget a "playtime_last_two_weeks" (.int 0))
  let author_playtime_at_review ← pyToInt (dget a "playtime_at_review" (.int 0))
  let votes_up ← pyToInt (dget r "votes_up" (.int 0))
  let votes_funny ← pyToInt (dget r "votes_funny" (.int 0))
  let weighted_vote_score := pyStr (dget r "weighted_vote_score" (.str ""))
  let comment_count ← pyToInt (dget r "comment_count" (.int 0))
  let steam_purchase := pyTruthy (dget r "steam_purchase" (.bool false))
  let received_for_free := pyTruthy (dget r "received_for_free" (.bool false))
  let written_during_early_access := pyTruthy (dget r "written_during_early_access" (.bool false))
  pure
    { recommendationid, steamid, language, review, voted_up,
      timestamp_created, timestamp_updated,
      author_num_games_owned, author_num_reviews, author_playtime_forever,
      author_playtime_last_two_weeks, author_playtime_at_review,
      votes_up, votes_funny, weighted_vote_score, comment_count,
      steam_purchase, received_for_free, written_during_early_access }

/-- `(pyToInt v).isOk`: the value can be coerced by Python `int(...)`. -/
def intCoercible (v : PyVal) : Bool :=
  match pyToInt v with
  | .ok _ => true
  | .error _ => false

/-- The value `int(v)` yields when it succeeds, defaulting to 0. -/
def intOf (v : PyVal) : Int :=
  match pyToInt v with
  | .ok n => n
  | .error _ => 0

/-- `v` is a dict. -/
def isDictV : PyVal → Bool
  | .dict _ => true
  | _ => false

/-- Sufficient (and for the coercions exercised, necessary) condition for
`_normalize_review` to return normally: the effective author value is a dict
and every integer-schema field that is present is `int(...)`-coercible. -/
def normalizeSafe (r : Payload) : Bool :=
  isDictV (authorVal r) &&
  intCoercible (dget r "timestamp_created" (.int 0)) &&
  intCoercible (dget r "timestamp_updated" (.int 0)) &&
  intCoercible (dget (authorDict r) "num_games_owned" (.int 0)) &&
  intCoercible (dget (authorDict r) "num_reviews" (.int 0)) &&
  intCoercible (dget (authorDict r) "playtime_forever" (.int 0)) &&
  intCoercible (dget (authorDict r) "playtime_last_two_weeks" (.int 0)) &&
  intCoercible (dget (authorDict r) "playtime_at_review" (.int 0)) &&
  intCoercible (dget r "votes_up" (.int 0)) &&
  intCoercible (dget r "votes_funny" (.int 0)) &&
  intCoercible (dget r "comment_count" (.int 0))

/-- Specification-side rule for string fields: string representation of the
source value when present, empty string when absent (spec 4.1). -/
def specString (r : Payload) (k : String) : String :=
  match lookupField r k with
  | some v => pyStr v
  | Option.none => ""

/-- Specification-side rule actually implemented for `language` and
`review`: the source value passed through unconverted when present, empty
string when absent. -/
def specPassThrough (r : Payload) (k : String) : PyVal :=
  match lookupField r k with
  | some v => v
  | Option.none => .str ""

/-- Specification-side rule for integer fields: integer conversion when
present (0 standing in for the non-coercible case, which raises), 0 when
absent (spec 4.1). -/
def specIntField (r : Payload) (k : String) : Int :=
  match lookupField r k with
  | some v => intOf v
  | Option.none => 0

/-- Specification-side rule for boolean fields: truthiness when present,
false when absent (spec 4.1). -/
def specBoolField (r : Payload) (k : String) : Bool :=
  match lookupField r k with
  | some v => pyTruthy v
  | Option.none => false

/-- Specification-side effective author record: the author sub-record when it
is present and truthy, otherwise empty (spec 4.1: the author sub-record is
optional and defaults apply when it is absent). -/
def specAuthor (r : Payload) : Payload :=
  match lookupField r "author" with
  | some (PyVal.dict d) => if pyTruthy (PyVal.dict d) then d else []
  | _ => []

/-- The normalized record described by the spec field rules (with the
pass-through rule for `language`/`review` that the code implements). -/
def normalizeSpec (r : Payload) : NormalizedReview :=
  { recommendationid := specString r "recommendationid"
  , steamid := specString (specAuthor r) "steamid"
  , language := specPassThrough r "language"
  , review := specPassThrough r "review"
  , voted_up := specBoolField r "voted_up"
  , timestamp_created := specIntField r "timestamp_created"
  , timestamp_updated := specIntField r "timestamp_updated"
  , author_num_games_owned := specIntField (specAuthor r) "num_games_owned"
  , author_num_reviews := specIntField (specAuthor r) "num_reviews"
  , author_playtime_forever := specIntField (specAuthor r) "playtime_forever"
  , author_playtime_last_two_weeks := specIntField (specAuthor r) "playtime_last_two_weeks"
  , author_playtime_at_review := specIntField (specAuthor r) "playtime_at_review"
  , votes_up := specIntField r "votes_up"
  , votes_funny := specIntField r "votes_funny"
  , weighted_vote_score := specString r "weighted_vote_score"
  , comment_count := specIntField r "comment_count"
  , steam_purchase := specBoolField r "steam_purchase"
  , received_for_free := specBoolField r "received_for_free"
  , written_during_early_access := specBoolField r "written_during_early_access" }

/-- URL template of the review-listing endpoint. -/
def STEAM_REVIEWS_URL : String := "https://store.steampowered.com/appreviews/\x7bappid\x7d"

/-- One HTTP response of the remote endpoint: status code, body text
(`resp.text`), and the decoded JSON object (`resp.json()`). -/
structure HttpResponse where
  status : Nat
  body : String
  payload : Payload

/-- One element of the output collection: a normalized record
(`asdict(_normalize_review(r))`) or a raw page object. -/
inductive Entry where
  | norm (nr : NormalizedReview)
  | raw (v : PyVal)

/-- Caller-supplied configuration of `fetch_all_steam_reviews_for_app`,
with the source defaults. The float-valued sleep and timeout parameters
have no logical effect and are not modelled. -/
structure Config where
  appid : Int
  language : String := "all"
  review_type : String := "all"
  purchase_type : String := "all"
  filter_mode : String := "recent"
  day_range : Int := 9223372036854775807
  num_per_page : Int := 100
  filter_offtopic_activity : Int := 1
  include_raw : Bool := false
  normalize : Bool := true
  max_reviews : Option Int := Option.none

/-- The request configuration echoed verbatim into the result envelope. -/
structure RequestParams where
  language : String
  review_type : String
  purchase_type : String
  filter : String
  day_range : Int
  num_per_page : Int
  filter_offtopic_activity : Int

/-- Build the echoed `request_params` object from the configuration. -/
def echoParams (cfg : Config) : RequestParams :=
  { language := cfg.language
  , review_type := cfg.review_type
  , purchase_type := cfg.purchase_type
  , filter := cfg.filter_mode
  , day_range := cfg.day_range
  , num_per_page := cfg.num_per_page
  , filter_offtopic_activity := cfg.filter_offtopic_activity }

/-- The persisted result envelope. -/
structure FetchResult where
  appid : Int
  fetched_at_utc : String
  request_params : RequestParams
  count : Nat
  last_cursor : PyVal
  reviews : List Entry
  raw_reviews : Option (List PyVal)

/-- How the pagination loop exited (instrumentation: records which `break`
fired). -/
inductive BreakKind where
  | guard
  | empty
  | cap
deriving DecidableEq

/-- The mutable state of the pagination loop, plus instrumentation fields:
`reqs` records the cursor of every issued request in order, `sleeps` counts
`time.sleep` calls, `appendedCount` sums the sizes of the appended pages
before any truncation, and `breakKind` records how the loop exited. -/
structure LoopState where
  cursor : PyVal
  seen : List PyVal
  normalized : List Entry
  raw : List PyVal
  reqs : List PyVal
  sleeps : Nat
  appendedCount : Nat
  breakKind : Option BreakKind

/-- The state at the top of the loop: wildcard first-page cursor, no seen
cursors, empty collections. -/
def initState : LoopState :=
  { cursor := .str "*", seen := [], normalized := [], raw := []
  , reqs := [], sleeps := 0, appendedCount := 0, breakKind := Option.none }

/-- Outcome of running the loop: normal exit with a final state, a raised
exception together with the state at the raise (whose `reqs`/`sleeps`
instrumentation is the externally observable trace), or exhausted fuel
(the loop has no intrinsic termination bound). -/
inductive LoopOutcome where
  | ok (s : LoopState)
  | err (e : PyErr) (s : LoopState)
  | fuelOut (s : LoopState)

/-- Message of the `SteamReviewsError` raised on a non-200 status:
`f"HTTP {resp.status_code}: {resp.text[:300]}"`. -/
def httpErrMsg (resp : HttpResponse) : String :=
  "HTTP " ++ toString resp.status ++ ": " ++ (resp.body.take 300)

/-- Message of the `SteamReviewsError` raised on a failing success flag:
`f"Steam returned success={data.get('success')}: {data}"`. -/
def upstreamErrMsg (data : Payload) : String :=
  "Steam returned success=" ++ pyStr (dget data "success" PyVal.none) ++ ": "
    ++ pyRepr (PyVal.dict data)

/-- Record the current cursor as seen and as an issued request
(`seen_cursors.add(cursor)` followed by the `sess.get` call). -/
def reqState (s : LoopState) : LoopState :=
  { s with seen := s.seen ++ [s.cursor], reqs := s.reqs ++ [s.cursor] }

/-- Append one full page: extend the raw collection when enabled, extend the
output collection, count the appended records, and advance the cursor. -/
def appendState (cfg : Config) (s : LoopState) (items : List PyVal)
    (entries : List Entry) (next_cursor : PyVal) : LoopState :=
  { s with
      raw := if cfg.include_raw then s.raw ++ items else s.raw,
      normalized := s.normalized ++ entries,
      appendedCount := s.appendedCount + items.length,
      cursor := next_cursor }

/-- `time.sleep(sleep_seconds)` between pages, as an instrumentation tick. -/
def sleepState (s : LoopState) : LoopState :=
  { s with sleeps := s.sleeps + 1 }

/-- Normalize every record of a page in order
(`for r in page_reviews: normalized_reviews.append(asdict(_normalize_review(r)))`);
the first record that raises aborts the whole operation. -/
def normalizePage : List PyVal → Except PyErr (List Entry)
  | [] => .ok []
  | x :: xs =>
    match asDict x with
    | .error e => .error e
    | .ok d =>
      match _normalize_review d with
      | .error e => .error e
      | .ok nr =>
        match normalizePage xs with
        | .error e => .error e
        | .ok rest => .ok (Entry.norm nr :: rest)

/-- Steps g and h of the loop: after a page was appended, check the
record cap; at or above it, truncate both collections to the cap and break,
otherwise sleep and continue. -/
def handleCap (cfg : Config) (s : LoopState) : LoopOutcome ⊕ LoopState :=
  match cfg.max_reviews with
  | some m =>
    if m ≤ (s.normalized.length : Int) then
      .inl (.ok { s with
        normalized := pyTake m s.normalized,
        raw := if cfg.include_raw then pyTake m s.raw else s.raw,
        breakKind := some BreakKind.cap })
    else .inr (sleepState s)
  | Option.none => .inr (sleepState s)

/-- Steps e to h of the loop for a decoded successful payload: empty page
breaks keeping the returned next-cursor; otherwise append the full page
(raw and/or normalized) and run the cap check. -/
def handlePage (cfg : Config) (page_reviews : PyVal) (next_cursor : PyVal)
    (s : LoopState) : LoopOutcome ⊕ LoopState :=
  if pyTruthy page_reviews then
    match asList page_reviews with
    | .error e => .inl (.err e s)
    | .ok items =>
      match (if cfg.normalize then normalizePage items
             else Except.ok (List.map Entry.raw items)) with
      | .error e =>
        .inl (.err e { s with raw := if cfg.include_raw then s.raw ++ items else s.raw })
      | .ok entries => handleCap cfg (appendState cfg s items entries next_cursor)
  else
    .inl (.ok { s with cursor := next_cursor, breakKind := some BreakKind.empty })

/-- Steps c to e for one response: non-200 status and failing success flag
raise `SteamReviewsError`; otherwise extract `page_reviews` (absent or falsy
becomes the empty list) and the next cursor (defaulting to the current one). -/
def handleResp (cfg : Config) (resp : HttpResponse) (s : LoopState) :
    LoopOutcome ⊕ LoopState :=
  if resp.status ≠ 200 then
    .inl (.err (.steamReviewsError (httpErrMsg resp)) s)
  else if pyEq (dget resp.payload "success" PyVal.none) (PyVal.int 1) then
    handlePage cfg (pyOr (dget resp.payload "reviews" PyVal.none) (PyVal.list []))
      (dget resp.payload "cursor" s.cursor) s
  else
    .inl (.err (.steamReviewsError (upstreamErrMsg resp.payload)) s)

/-- One iteration of the `while True` loop: the loop-guard check, then the
fetch against the transport (`sv` maps the index of the request to its
response), then response handling. `.inl` ends the loop, `.inr` continues. -/
def loopBody (sv : Nat → HttpResponse) (cfg : Config) (s : LoopState) :
    LoopOutcome ⊕ LoopState :=
  if pyMem s.cursor s.seen then
    .inl (.ok { s with breakKind := some BreakKind.guard })
  else
    handleResp cfg (sv s.reqs.length) (reqState s)

/-- The fuel-indexed pagination loop. -/
def fetchLoop (sv : Nat → HttpResponse) (cfg : Config) :
    Nat → LoopState → LoopOutcome
  | 0, s => .fuelOut s
  | fuel + 1, s =>
    match loopBody sv cfg s with
    | .inl out => out
    | .inr s2 => fetchLoop sv cfg fuel s2

/-- Outcome of a whole `fetch_all_steam_reviews_for_app` call. On success
the final loop state is kept alongside the envelope as the observable
trace of the run. -/
inductive FetchOutcome where
  | ok (res : FetchResult) (s : LoopState)
  | err (e : PyErr) (s : LoopState)
  | fuelOut (s : LoopState)

/-- Assemble the result envelope from the final loop state
(`result = {...}` at the end of the source function). -/
def assemble (cfg : Config) (now : String) (s : LoopState) : FetchResult :=
  { appid := cfg.appid
  , fetched_at_utc := now
  , request_params := echoParams cfg
  , count := s.normalized.length
  , last_cursor := s.cursor
  , reviews := s.normalized
  , raw_reviews := if cfg.include_raw then some s.raw else Option.none }

/-- `fetch_all_steam_reviews_for_app`: validate `num_per_page`, run the
cursor loop from the wildcard cursor, and assemble the envelope. `now` is
the wall-clock timestamp (opaque here), `fuel` bounds the number of
iterations of the embedded loop. -/
def fetch_all_steam_reviews_for_app (sv : Nat → HttpResponse) (cfg : Config)
    (now : String) (fuel : Nat) : FetchOutcome :=
  if 1 ≤ cfg.num_per_page ∧ cfg.num_per_page ≤ 100 then
    match fetchLoop sv cfg fuel initState with
    | .ok s => .ok (assemble cfg now s) s
    | .err e s => .err e s
    | .fuelOut s => .fuelOut s
  else
    .err (.valueError "num_per_page must be between 1 and 100") initState

/-- Bind on a successful `Except` computation reduces. -/
theorem exBind_ok {α β : Type} (a : α) (f : α → Except PyErr β) :
    (Except.ok a >>= f) = f a := rfl

/-- `pure` for `Except` is `Except.ok`. -/
theorem exPure_eq {β : Type} (a : β) : (pure a : Except PyErr β) = Except.ok a := rfl

/-- When the effective author value is a dict, reading it as a dict yields
its entries. -/
theorem asDict_authorVal (r : Payload) (h : isDictV (authorVal r) = true) :
    asDict (authorVal r) = Except.ok (authorDict r) := by
  revert h
  unfold isDictV asDict authorDict
  cases authorVal r <;> simp

/-- A coercible value converts to `intOf` of itself. -/
theorem pyToInt_coercible (v : PyVal) (h : intCoercible v = true) :
    pyToInt v = Except.ok (intOf v) := by
  unfold intCoercible at h
  unfold intOf
  cases hv : pyToInt v <;> simp_all

/-- The spec string rule agrees with `str(r.get(k, ""))`. -/
theorem specString_eq (r : Payload) (k : String) :
    specString r k = pyStr (dget r k (.str "")) := by
  unfold specString dget
  cases lookupField r k <;> rfl

/-- The spec pass-through rule agrees with `r.get(k, "")`. -/
theorem specPassThrough_eq (r : Payload) (k : String) :
    specPassThrough r k = dget r k (.str "") := by
  unfold specPassThrough dget
  cases lookupField r k <;> rfl

/-- The spec boolean rule agrees with `bool(r.get(k, False))`. -/
theorem specBoolField_eq (r : Payload) (k : String) :
    specBoolField r k = pyTruthy (dget r k (.bool false)) := by
  unfold specBoolField dget
  cases lookupField r k <;> rfl

/-- The spec integer rule agrees with the successful value of
`int(r.get(k, 0))`. -/
theorem specIntField_eq (r : Payload) (k : String) :
    specIntField r k = intOf (dget r k (.int 0)) := by
  unfold specIntField dget
  cases lookupField r k <;> rfl

/-- The spec-side effective author record is the code's effective author
dict. -/
theorem specAuthor_eq (r : Payload) : specAuthor r = authorDict r := by
  unfold specAuthor authorDict authorVal pyOr dget
  cases lookupField r "author" with
  | none => rfl
  | some v =>
    cases v with
    | none => rfl
    | bool b => cases b <;> rfl
    | int n => by_cases hn : n = 0 <;> simp [pyTruthy, hn]
    | str s => cases hs : s.isEmpty <;> simp [pyTruthy, hs]
    | list xs => cases hx : xs.isEmpty <;> simp [pyTruthy, hx]
    | dict d => cases hd : d.isEmpty <;> simp [pyTruthy, hd]

/-- Under `normalizeSafe`, the normalizer returns exactly the record built
by the per-field spec rules. -/
theorem normalize_spec_eq (r : Payload) (h : normalizeSafe r = true) :
    _normalize_review r = Except.ok (normalizeSpec r) := by
  unfold normalizeSafe at h
  simp only [Bool.and_eq_true] at h
  obtain ⟨⟨⟨⟨⟨⟨⟨⟨⟨⟨hA, h1⟩, h2⟩, h3⟩, h4⟩, h5⟩, h6⟩, h7⟩, h8⟩, h9⟩, h10⟩ := h
  unfold _normalize_review
  simp only [asDict_authorVal r hA,
    pyToInt_coercible _ h1, pyToInt_coercible _ h2, pyToInt_coercible _ h3,
    pyToInt_coercible _ h4, pyToInt_coercible _ h5, pyToInt_coercible _ h6,
    pyToInt_coercible _ h7, pyToInt_coercible _ h8, pyToInt_coercible _ h9,
    pyToInt_coercible _ h10, exBind_ok, exPure_eq]
  unfold normalizeSpec
  simp only [specString_eq, specPassThrough_eq, specBoolField_eq,
    specIntField_eq, specAuthor_eq]

/-- The erased key is no longer found. -/
theorem lookupField_eraseKey_self (r : Payload) (k : String) :
    lookupField (eraseKey r k) k = Option.none := by
  induction r with
  | nil => rfl
  | cons p t ih =>
    simp only [eraseKey, List.filter] at *
    cases hpk : p.1 == k with
    | true => simpa [hpk] using ih
    | false => simp only [lookupField, List.find?, hpk] at *; exact ih

/-- Erasing one key leaves the lookup of any other key unchanged. -/
theorem lookupField_eraseKey_ne (r : Payload) (k k2 : String) (h : k2 ≠ k) :
    lookupField (eraseKey r k) k2 = lookupField r k2 := by
  induction r with
  | nil => rfl
  | cons p t ih =>
    simp only [eraseKey, List.filter] at *
    cases hpk : p.1 == k with
    | true =>
      have hp2 : (p.1 == k2) = false := by
        have hp1 : p.1 = k := by simpa using hpk
        subst hp1
        simpa using fun hh => h hh.symm
      simp only [lookupField, List.find?, hp2, hpk] at *
      exact ih
    | false =>
      cases hp2 : p.1 == k2 with
      | true => simp [lookupField, List.find?, hp2, hpk]
      | false => simpa [lookupField, List.find?, hp2, hpk] using ih

/-- Erasing one key leaves `r.get` of any other key unchanged. -/
theorem dget_eraseKey_ne (r : Payload) (k k2 : String) (d : PyVal) (h : k2 ≠ k) :
    dget (eraseKey r k) k2 d = dget r k2 d := by
  unfold dget
  rw [lookupField_eraseKey_ne r k k2 h]

/-- A present but falsy author value is replaced by the empty dict. -/
theorem authorVal_of_falsy (r : Payload) (v : PyVal)
    (hv : lookupField r "author" = some v) (hf : pyTruthy v = false) :
    authorVal r = PyVal.dict [] := by
  unfold authorVal pyOr dget
  rw [hv, hf]
  simp

/-- An absent author key yields the empty dict. -/
theorem authorVal_of_absent (r : Payload)
    (hv : lookupField r "author" = Option.none) :
    authorVal r = PyVal.dict [] := by
  unfold authorVal pyOr dget
  rw [hv]
  simp [pyTruthy]

/-- With a present falsy author, normalization coincides with normalization
of the record with the author key removed. -/
theorem normalize_author_falsy (r : Payload) (v : PyVal)
    (hv : lookupField r "author" = some v) (hf : pyTruthy v = false) :
    _normalize_review r = _normalize_review (eraseKey r "author") := by
  unfold _normalize_review
  rw [authorVal_of_falsy r v hv hf,
      authorVal_of_absent (eraseKey r "author") (lookupField_eraseKey_self r "author")]
  rw [dget_eraseKey_ne r "author" "recommendationid" _ (by decide),
      dget_eraseKey_ne r "author" "language" _ (by decide),
      dget_eraseKey_ne r "author" "review" _ (by decide),
      dget_eraseKey_ne r "author" "voted_up" _ (by decide),
      dget_eraseKey_ne r "author" "timestamp_created" _ (by decide),
      dget_eraseKey_ne r "author" "timestamp_updated" _ (by decide),
      dget_eraseKey_ne r "author" "votes_up" _ (by decide),
      dget_eraseKey_ne r "author" "votes_funny" _ (by decide),
      dget_eraseKey_ne r "author" "weighted_vote_score" _ (by decide),
      dget_eraseKey_ne r "author" "comment_count" _ (by decide),
      dget_eraseKey_ne r "author" "steam_purchase" _ (by decide),
      dget_eraseKey_ne r "author" "received_for_free" _ (by decide),
      dget_eraseKey_ne r "author" "written_during_early_access" _ (by decide)]

/-- With a present falsy author, the spec-side effective author record is
empty. -/
theorem specAuthor_of_falsy (r : Payload) (v : PyVal)
    (hv : lookupField r "author" = some v) (hf : pyTruthy v = false) :
    specAuthor r = [] := by
  unfold specAuthor
  rw [hv]
  cases v <;> simp_all

/-- C1 counterexample: a raw record with a present but non-numeric
`votes_up` makes `_normalize_review` raise a `ValueError` (from `int(...)`),
so normalization is not total on records with wrong-shaped fields. -/
theorem claim_C1_counterexample :
    _normalize_review [("votes_up", PyVal.str "abc")] =
      Except.error (PyErr.valueError
        ("invalid literal for int() with base 10: " ++ pyRepr (PyVal.str "abc"))) := by
  rfl

/-- C1 (amended): `_normalize_review` returns a `NormalizedReview` and never
raises for every raw record whose present integer-schema fields are
`int(...)`-coercible and whose author value, when truthy, is a dict; in
particular any combination of missing fields (including a missing or falsy
author sub-record) is handled without raising. -/
theorem claim_C1_normalize_total (r : Payload) (h : normalizeSafe r = true) :
    ∃ nr, _normalize_review r = Except.ok nr :=
  ⟨normalizeSpec r, normalize_spec_eq r h⟩

/-- C1 witness: a record with a missing author, a missing top-level field
and wrong-typed but coercible values normalizes successfully. -/
theorem claim_C1_normalize_total_witness :
    normalizeSafe [("recommendationid", PyVal.int 42), ("author", PyVal.none),
        ("votes_up", PyVal.str "17")] = true ∧
      ∃ nr, _normalize_review [("recommendationid", PyVal.int 42), ("author", PyVal.none),
        ("votes_up", PyVal.str "17")] = Except.ok nr :=
  ⟨rfl, claim_C1_normalize_total _ rfl⟩

/-- C2 counterexample: for a present non-string `language` value the output
field is the source value itself (here the integer 7), not its string
representation, because the code copies `r.get("language", "")` without a
`str(...)` conversion. -/
theorem claim_C2_counterexample :
    (_normalize_review [("language", PyVal.int 7)]).map NormalizedReview.language =
        Except.ok (PyVal.int 7) ∧
      PyVal.int 7 ≠ PyVal.str (pyStr (PyVal.int 7)) :=
  ⟨rfl, fun h => by cases h⟩

/-- C2 (amended): under `normalizeSafe`, every field of the output follows
its rule: `recommendationid`, `steamid` and `weighted_vote_score` are the
string representation of the source value when present and `""` when absent;
`language` and `review` are the source value passed through unconverted when
present and `""` when absent; integer fields are the integer conversion when
present and 0 when absent (a present non-coercible value raises instead of
defaulting); boolean fields are the truthiness coercion when present and
false when absent; author fields come from the effective author sub-record. -/
theorem claim_C2_field_rules (r : Payload) (h : normalizeSafe r = true) :
    _normalize_review r = Except.ok (normalizeSpec r) :=
  normalize_spec_eq r h

/-- C2 witness: the field rules evaluated on a concrete record with present,
absent and coercible wrong-typed fields. -/
theorem claim_C2_field_rules_witness :
    normalizeSafe [("language", PyVal.str "en"), ("votes_up", PyVal.str "12"),
        ("voted_up", PyVal.int 5),
        ("author", PyVal.dict [("steamid", PyVal.int 765), ("num_reviews", PyVal.bool true)])]
        = true ∧
      _normalize_review [("language", PyVal.str "en"), ("votes_up", PyVal.str "12"),
        ("voted_up", PyVal.int 5),
        ("author", PyVal.dict [("steamid", PyVal.int 765), ("num_reviews", PyVal.bool true)])]
        = Except.ok (normalizeSpec [("language", PyVal.str "en"), ("votes_up", PyVal.str "12"),
          ("voted_up", PyVal.int 5),
          ("author", PyVal.dict [("steamid", PyVal.int 765), ("num_reviews", PyVal.bool true)])]) :=
  ⟨rfl, claim_C2_field_rules _ rfl⟩

/-- C9: for every raw record whose author field is present but falsy
(`None`, 0, "", empty containers, False), `_normalize_review` behaves
exactly as if the author key were absent; when the rest of the record is
well-shaped, the five author-derived integer fields default to 0 and
`steamid` to `""`, and the author handling raises nothing. -/
theorem claim_C9_falsy_author (r : Payload) (v : PyVal)
    (hv : lookupField r "author" = some v) (hf : pyTruthy v = false) :
    _normalize_review r = _normalize_review (eraseKey r "author") ∧
      (normalizeSafe r = true →
        ∃ nr, _normalize_review r = Except.ok nr ∧ nr.steamid = "" ∧
          nr.author_num_games_owned = 0 ∧ nr.author_num_reviews = 0 ∧
          nr.author_playtime_forever = 0 ∧ nr.author_playtime_last_two_weeks = 0 ∧
          nr.author_playtime_at_review = 0) := by
  constructor
  · exact normalize_author_falsy r v hv hf
  · intro hs
    refine ⟨normalizeSpec r, normalize_spec_eq r hs, ?_, ?_, ?_, ?_, ?_, ?_⟩ <;>
      simp [normalizeSpec, specAuthor_of_falsy r v hv hf, specString, specIntField,
        lookupField]

/-- C9 witness: a record with `author: None` normalizes exactly like the
record without the author key, with defaulted author fields. -/
theorem claim_C9_falsy_author_witness :
    (_normalize_review [("author", PyVal.none), ("votes_up", PyVal.int 3)] =
        _normalize_review (eraseKey [("author", PyVal.none), ("votes_up", PyVal.int 3)] "author")) ∧
      ∃ nr, _normalize_review [("author", PyVal.none), ("votes_up", PyVal.int 3)] =
          Except.ok nr ∧ nr.steamid = "" ∧
          nr.author_num_games_owned = 0 ∧ nr.author_num_reviews = 0 ∧
          nr.author_playtime_forever = 0 ∧ nr.author_playtime_last_two_weeks = 0 ∧
          nr.author_playtime_at_review = 0 := by
  have hc := claim_C9_falsy_author [("author", PyVal.none), ("votes_up", PyVal.int 3)]
    PyVal.none rfl rfl
  exact ⟨hc.1, hc.2 rfl⟩

/-- Requests are pairwise fresh: no later request reuses (in the Python
equality sense) the cursor of an earlier one. -/
def PairwiseFresh (l : List PyVal) : Prop :=
  List.Pairwise (fun a b => pyEq b a = false) l

/-- A failed membership test gives freshness against every element. -/
theorem pyMem_false_forall (x : PyVal) (l : List PyVal) (h : pyMem x l = false) :
    ∀ a ∈ l, pyEq x a = false := by
  intro a ha
  unfold pyMem at h
  rw [List.any_eq_false] at h
  simpa using h a ha

/-- Appending a cursor that was not seen keeps the request list fresh. -/
theorem pairwiseFresh_append (l : List PyVal) (x : PyVal)
    (h1 : PairwiseFresh l) (h2 : pyMem x l = false) : PairwiseFresh (l ++ [x]) := by
  unfold PairwiseFresh at *
  rw [List.pairwise_append]
  refine ⟨h1, List.pairwise_singleton _ _, ?_⟩
  intro a ha b hb
  simp only [List.mem_singleton] at hb
  subst hb
  exact pyMem_false_forall b l h2 a ha

/-- Length of a nonnegative Python slice. -/
theorem pyTake_length_of_nonneg {α : Type} (m : Int) (l : List α) (hm : 0 ≤ m) :
    (pyTake m l).length = min m.toNat l.length := by
  unfold pyTake
  rw [if_pos hm]
  simp [List.length_take]

/-- Slicing two lists of equal length gives equal lengths. -/
theorem pyTake_length_congr {α β : Type} (m : Int) (l1 : List α) (l2 : List β)
    (h : l1.length = l2.length) :
    (pyTake m l1).length = (pyTake m l2).length := by
  unfold pyTake
  rw [h]
  split <;> simp [List.length_take, h]

/-- A successfully normalized page has one entry per raw record. -/
theorem normalizePage_length (items : List PyVal) (entries : List Entry)
    (h : normalizePage items = Except.ok entries) : entries.length = items.length := by
  induction items generalizing entries with
  | nil => cases h; rfl
  | cons x xs ih =>
    unfold normalizePage at h
    cases hd : asDict x with
    | error e => rw [hd] at h; cases h
    | ok d =>
      rw [hd] at h
      dsimp only at h
      cases hn : _normalize_review d with
      | error e => rw [hn] at h; cases h
      | ok nr =>
        rw [hn] at h
        dsimp only at h
        cases hr : normalizePage xs with
        | error e => rw [hr] at h; cases h
        | ok rest =>
          rw [hr] at h
          dsimp only at h
          cases h
          simp [ih rest hr]

/-- Invariant holding at the top of every loop iteration: requests and seen
cursors coincide, requests are fresh, the output size equals the number of
appended records (no truncation yet), the raw collection tracks the output,
every issued request was followed by a sleep, the output is strictly below a
configured cap (or still empty), and no break has fired. -/
def EntryInv (cfg : Config) (s : LoopState) : Prop :=
  s.reqs = s.seen ∧
  PairwiseFresh s.seen ∧
  s.normalized.length = s.appendedCount ∧
  (cfg.include_raw = true → s.raw.length = s.normalized.length) ∧
  s.sleeps = s.reqs.length ∧
  (∀ m, cfg.max_reviews = some m →
    s.normalized.length = 0 ∨ (s.normalized.length : Int) < m) ∧
  s.breakKind = Option.none

/-- Invariant of a normally finished loop: requests stayed fresh, raw tracks
output, sleeps are related to requests according to the recorded break kind
(the final guard iteration issues no request and never sleeps; empty-page and
cap breaks issue a final request but skip the sleep), and a configured
nonnegative cap bounds the output, exactly reaching it whenever the appended
records reached the cap. -/
def ExitInv (cfg : Config) (s : LoopState) : Prop :=
  s.reqs = s.seen ∧
  PairwiseFresh s.reqs ∧
  (cfg.include_raw = true → s.raw.length = s.normalized.length) ∧
  (s.breakKind = some BreakKind.guard → s.sleeps = s.reqs.length) ∧
  (s.breakKind = some BreakKind.empty → s.sleeps + 1 = s.reqs.length) ∧
  (s.breakKind = some BreakKind.cap → s.sleeps + 1 = s.reqs.length) ∧
  (s.breakKind = some BreakKind.guard ∨ s.breakKind = some BreakKind.empty ∨
    s.breakKind = some BreakKind.cap) ∧
  (∀ m, cfg.max_reviews = some m → 0 ≤ m →
    (s.normalized.length : Int) ≤ m ∧
      (m ≤ (s.appendedCount : Int) → (s.normalized.length : Int) = m))

/-- The cap check after a page append: a break truncates to the cap and
establishes the exit invariant. -/
theorem handleCap_ok (cfg : Config) (s s' : LoopState)
    (h1 : s.reqs = s.seen) (h2 : PairwiseFresh s.seen)
    (h3 : s.normalized.length = s.appendedCount)
    (h4 : cfg.include_raw = true → s.raw.length = s.normalized.length)
    (h5 : s.sleeps + 1 = s.reqs.length)
    (h : handleCap cfg s = Sum.inl (LoopOutcome.ok s')) : ExitInv cfg s' := by
  unfold handleCap at h
  cases hmax : cfg.max_reviews with
  | none => rw [hmax] at h; cases h
  | some m =>
    rw [hmax] at h
    dsimp only at h
    by_cases hc : m ≤ (s.normalized.length : Int)
    · rw [if_pos hc] at h
      cases h
      refine ⟨h1, h1 ▸ h2, ?_, ?_, ?_, ?_, ?_, ?_⟩
      · intro hir
        simp only [if_pos hir]
        exact pyTake_length_congr m s.raw s.normalized (h4 hir)
      · intro hk; cases hk
      · intro hk; cases hk
      · intro _; exact h5
      · exact Or.inr (Or.inr rfl)
      · intro m0 hm0 hnn
        rw [hmax] at hm0
        cases hm0
        have hlen : (pyTake m s.normalized).length = min m.toNat s.normalized.length :=
          pyTake_length_of_nonneg m s.normalized hnn
        have hcast : (m.toNat : Int) = m := Int.toNat_of_nonneg hnn
        constructor
        · simp only [hlen]
          omega
        · intro _
          simp only [hlen]
          omega
    · rw [if_neg hc] at h
      cases h

/-- The cap check after a page append: continuing sleeps once and
re-establishes the entry invariant. -/
theorem handleCap_cont (cfg : Config) (s s2 : LoopState)
    (h1 : s.reqs = s.seen) (h2 : PairwiseFresh s.seen)
    (h3 : s.normalized.length = s.appendedCount)
    (h4 : cfg.include_raw = true → s.raw.length = s.normalized.length)
    (h5 : s.sleeps + 1 = s.reqs.length)
    (h6 : s.breakKind = Option.none)
    (h : handleCap cfg s = Sum.inr s2) : EntryInv cfg s2 := by
  unfold handleCap at h
  cases hmax : cfg.max_reviews with
  | none =>
    rw [hmax] at h
    cases h
    refine ⟨h1, h2, h3, h4, h5, ?_, h6⟩
    intro m hm
    rw [hmax] at hm
    cases hm
  | some m =>
    rw [hmax] at h
    dsimp only at h
    by_cases hc : m ≤ (s.normalized.length : Int)
    · rw [if_pos hc] at h; cases h
    · rw [if_neg hc] at h
      cases h
      refine ⟨h1, h2, h3, h4, h5, ?_, h6⟩
      intro m0 hm0
      rw [hmax] at hm0
      cases hm0
      right
      show (s.normalized.length : Int) < m
      omega

/-- Page handling after a successful decode, break case: either the page was
empty (step e) or the cap was reached after appending it (step h); both
establish the exit invariant. -/
theorem handlePage_ok (cfg : Config) (pr nc : PyVal) (s s' : LoopState)
    (h1 : s.reqs = s.seen) (h2 : PairwiseFresh s.seen)
    (h3 : s.normalized.length = s.appendedCount)
    (h4 : cfg.include_raw = true → s.raw.length = s.normalized.length)
    (h5 : s.sleeps + 1 = s.reqs.length)
    (h7 : ∀ m, cfg.max_reviews = some m →
      s.normalized.length = 0 ∨ (s.normalized.length : Int) < m)
    (h : handlePage cfg pr nc s = Sum.inl (LoopOutcome.ok s')) : ExitInv cfg s' := by
  unfold handlePage at h
  by_cases ht : pyTruthy pr = true
  · rw [if_pos ht] at h
    cases hl : asList pr with
    | error e => rw [hl] at h; cases h
    | ok items =>
      rw [hl] at h
      dsimp only at h
      cases he : (if cfg.normalize then normalizePage items
          else Except.ok (List.map Entry.raw items)) with
      | error e => rw [he] at h; cases h
      | ok entries =>
        rw [he] at h
        dsimp only at h
        have hlen : entries.length = items.length := by
          by_cases hn : cfg.normalize = true
          · rw [if_pos hn] at he
            exact normalizePage_length items entries he
          · rw [if_neg hn] at he
            cases he
            simp
        have h3a : (appendState cfg s items entries nc).normalized.length =
            (appendState cfg s items entries nc).appendedCount := by
          show (s.normalized ++ entries).length = s.appendedCount + items.length
          simp [List.length_append, hlen, h3]
        have h4a : cfg.include_raw = true →
            (appendState cfg s items entries nc).raw.length =
              (appendState cfg s items entries nc).normalized.length := by
          intro hir
          show (if cfg.include_raw then s.raw ++ items else s.raw).length =
            (s.normalized ++ entries).length
          rw [if_pos hir]
          simp [List.length_append, h4 hir, hlen]
        exact handleCap_ok cfg (appendState cfg s items entries nc) s' h1 h2 h3a h4a h5 h
  · rw [if_neg ht] at h
    cases h
    refine ⟨h1, h1 ▸ h2, h4, ?_, ?_, ?_, Or.inr (Or.inl rfl), ?_⟩
    · intro hk; cases hk
    · intro _; exact h5
    · intro hk; cases hk
    · intro m0 hm0 hnn
      have hd := h7 m0 hm0
      constructor
      · show (s.normalized.length : Int) ≤ m0
        omega
      · intro hge
        have hge2 : m0 ≤ (s.appendedCount : Int) := hge
        show (s.normalized.length : Int) = m0
        omega

/-- Page handling, continue case: the cap was not reached; the entry
invariant is re-established for the next iteration. -/
theorem handlePage_cont (cfg : Config) (pr nc : PyVal) (s s2 : LoopState)
    (h1 : s.reqs = s.seen) (h2 : PairwiseFresh s.seen)
    (h3 : s.normalized.length = s.appendedCount)
    (h4 : cfg.include_raw = true → s.raw.length = s.normalized.length)
    (h5 : s.sleeps + 1 = s.reqs.length)
    (h6 : s.breakKind = Option.none)
    (h : handlePage cfg pr nc s = Sum.inr s2) : EntryInv cfg s2 := by
  unfold handlePage at h
  by_cases ht : pyTruthy pr = true
  · rw [if_pos ht] at h
    cases hl : asList pr with
    | error e => rw [hl] at h; cases h
    | ok items =>
      rw [hl] at h
      dsimp only at h
      cases he : (if cfg.normalize then normalizePage items
          else Except.ok (List.map Entry.raw items)) with
      | error e => rw [he] at h; cases h
      | ok entries =>
        rw [he] at h
        dsimp only at h
        have hlen : entries.length = items.length := by
          by_cases hn : cfg.normalize = true
          · rw [if_pos hn] at he
            exact normalizePage_length items entries he
          · rw [if_neg hn] at he
            cases he
            simp
        have h3a : (appendState cfg s items entries nc).normalized.length =
            (appendState cfg s items entries nc).appendedCount := by
          show (s.normalized ++ entries).length = s.appendedCount + items.length
          simp [List.length_append, hlen, h3]
        have h4a : cfg.include_raw = true →
            (appendState cfg s items entries nc).raw.length =
              (appendState cfg s items entries nc).normalized.length := by
          intro hir
          show (if cfg.include_raw then s.raw ++ items else s.raw).length =
            (s.normalized ++ entries).length
          rw [if_pos hir]
          simp [List.length_append, h4 hir, hlen]
        exact handleCap_cont cfg (appendState cfg s items entries nc) s2 h1 h2 h3a h4a h5 h6 h
  · rw [if_neg ht] at h
    cases h

/-- Response handling, break case: only a successfully decoded page can end
the loop normally, and it establishes the exit invariant. -/
theorem handleResp_ok (cfg : Config) (resp : HttpResponse) (s s' : LoopState)
    (h1 : s.reqs = s.seen) (h2 : PairwiseFresh s.seen)
    (h3 : s.normalized.length = s.appendedCount)
    (h4 : cfg.include_raw = true → s.raw.length = s.normalized.length)
    (h5 : s.sleeps + 1 = s.reqs.length)
    (h7 : ∀ m, cfg.max_reviews = some m →
      s.normalized.length = 0 ∨ (s.normalized.length : Int) < m)
    (h : handleResp cfg resp s = Sum.inl (LoopOutcome.ok s')) : ExitInv cfg s' := by
  unfold handleResp at h
  by_cases hst : resp.status ≠ 200
  · rw [if_pos hst] at h; cases h
  · rw [if_neg hst] at h
    by_cases hsc : pyEq (dget resp.payload "success" PyVal.none) (PyVal.int 1) = true
    · rw [if_pos hsc] at h
      exact handlePage_ok cfg _ _ s s' h1 h2 h3 h4 h5 h7 h
    · rw [if_neg hsc] at h; cases h

/-- Response handling, continue case. -/
theorem handleResp_cont (cfg : Config) (resp : HttpResponse) (s s2 : LoopState)
    (h1 : s.reqs = s.seen) (h2 : PairwiseFresh s.seen)
    (h3 : s.normalized.length = s.appendedCount)
    (h4 : cfg.include_raw = true → s.raw.length = s.normalized.length)
    (h5 : s.sleeps + 1 = s.reqs.length)
    (h6 : s.breakKind = Option.none)
    (h : handleResp cfg resp s = Sum.inr s2) : EntryInv cfg s2 := by
  unfold handleResp at h
  by_cases hst : resp.status ≠ 200
  · rw [if_pos hst] at h; cases h
  · rw [if_neg hst] at h
    by_cases hsc : pyEq (dget resp.payload "success" PyVal.none) (PyVal.int 1) = true
    · rw [if_pos hsc] at h
      exact handlePage_cont cfg _ _ s s2 h1 h2 h3 h4 h5 h6 h
    · rw [if_neg hsc] at h; cases h

/-- One loop iteration, break case: the exit invariant holds. -/
theorem loopBody_ok (sv : Nat → HttpResponse) (cfg : Config) (s s' : LoopState)
    (hInv : EntryInv cfg s)
    (h : loopBody sv cfg s = Sum.inl (LoopOutcome.ok s')) : ExitInv cfg s' := by
  obtain ⟨h1, h2, h3, h4, h5, h7, h6⟩ := hInv
  unfold loopBody at h
  by_cases hm : pyMem s.cursor s.seen = true
  · rw [if_pos hm] at h
    cases h
    refine ⟨h1, h1 ▸ h2, h4, ?_, ?_, ?_, Or.inl rfl, ?_⟩
    · intro _; exact h5
    · intro hk; cases hk
    · intro hk; cases hk
    · intro m0 hm0 hnn
      have hd := h7 m0 hm0
      constructor
      · show (s.normalized.length : Int) ≤ m0
        omega
      · intro hge
        have hge2 : m0 ≤ (s.appendedCount : Int) := hge
        show (s.normalized.length : Int) = m0
        omega
  · rw [if_neg hm] at h
    have hmem : pyMem s.cursor s.seen = false := by
      cases hmm : pyMem s.cursor s.seen
      · rfl
      · exact absurd hmm hm
    refine handleResp_ok cfg (sv s.reqs.length) (reqState s) s' ?_ ?_ h3 h4 ?_ h7 h
    · show s.reqs ++ [s.cursor] = s.seen ++ [s.cursor]
      rw [h1]
    · show PairwiseFresh (s.seen ++ [s.cursor])
      exact pairwiseFresh_append s.seen s.cursor h2 hmem
    · show s.sleeps + 1 = (s.reqs ++ [s.cursor]).length
      simp [List.length_append, h5]

/-- One loop iteration, continue case: the entry invariant is preserved. -/
theorem loopBody_cont (sv : Nat → HttpResponse) (cfg : Config) (s s2 : LoopState)
    (hInv : EntryInv cfg s)
    (h : loopBody sv cfg s = Sum.inr s2) : EntryInv cfg s2 := by
  obtain ⟨h1, h2, h3, h4, h5, h7, h6⟩ := hInv
  unfold loopBody at h
  by_cases hm : pyMem s.cursor s.seen = true
  · rw [if_pos hm] at h; cases h
  · rw [if_neg hm] at h
    have hmem : pyMem s.cursor s.seen = false := by
      cases hmm : pyMem s.cursor s.seen
      · rfl
      · exact absurd hmm hm
    refine handleResp_cont cfg (sv s.reqs.length) (reqState s) s2 ?_ ?_ h3 h4 ?_ h6 h
    · show s.reqs ++ [s.cursor] = s.seen ++ [s.cursor]
      rw [h1]
    · show PairwiseFresh (s.seen ++ [s.cursor])
      exact pairwiseFresh_append s.seen s.cursor h2 hmem
    · show s.sleeps + 1 = (s.reqs ++ [s.cursor]).length
      simp [List.length_append, h5]

/-- A loop run that exits normally from a state satisfying the entry
invariant ends in a state satisfying the exit invariant. -/
theorem fetchLoop_ok_inv (sv : Nat → HttpResponse) (cfg : Config) :
    ∀ (fuel : Nat) (s s' : LoopState), EntryInv cfg s →
      fetchLoop sv cfg fuel s = LoopOutcome.ok s' → ExitInv cfg s' := by
  intro fuel
  induction fuel with
  | zero => intro s s' _ h; cases h
  | succ fuel ih =>
    intro s s' hInv h
    unfold fetchLoop at h
    cases hb : loopBody sv cfg s with
    | inl out =>
      rw [hb] at h
      dsimp only at h
      subst h
      exact loopBody_ok sv cfg s s' hInv hb
    | inr s2 =>
      rw [hb] at h
      dsimp only at h
      exact ih s2 s' (loopBody_cont sv cfg s s2 hInv hb) h

/-- The initial loop state satisfies the entry invariant. -/
theorem entryInv_init (cfg : Config) : EntryInv cfg initState :=
  ⟨rfl, List.Pairwise.nil, rfl, fun _ => rfl, rfl, fun _ _ => Or.inl rfl, rfl⟩

/-- A successful `fetch_all_steam_reviews_for_app` call is a successful loop
run from the initial state, whose final state is assembled into the
envelope. -/
theorem fetch_all_ok_elim (sv : Nat → HttpResponse) (cfg : Config)
    (now : String) (fuel : Nat) (res : FetchResult) (s : LoopState)
    (h : fetch_all_steam_reviews_for_app sv cfg now fuel = FetchOutcome.ok res s) :
    fetchLoop sv cfg fuel initState = LoopOutcome.ok s ∧ res = assemble cfg now s := by
  unfold fetch_all_steam_reviews_for_app at h
  by_cases hb : 1 ≤ cfg.num_per_page ∧ cfg.num_per_page ≤ 100
  · rw [if_pos hb] at h
    cases hl : fetchLoop sv cfg fuel initState with
    | ok s0 => rw [hl] at h; cases h; exact ⟨rfl, rfl⟩
    | err e s0 => rw [hl] at h; cases h
    | fuelOut s0 => rw [hl] at h; cases h
  · rw [if_neg hb] at h
    cases h

/-- C3: for every configured nonnegative cap and every run whose appended
page records exceed the cap, the call returns an envelope with exactly cap
records (and, with raw inclusion enabled, a raw collection of exactly cap
records); the `appendedCount` trace exceeding the cap witnesses that the
full final page was appended before truncation. -/
theorem claim_C3_cap_invariant (sv : Nat → HttpResponse) (cfg : Config)
    (now : String) (fuel : Nat) (res : FetchResult) (s : LoopState) (m : Int)
    (hmax : cfg.max_reviews = some m) (hm : 0 ≤ m)
    (h : fetch_all_steam_reviews_for_app sv cfg now fuel = FetchOutcome.ok res s)
    (hexceed : m < (s.appendedCount : Int)) :
    res.count = m.toNat ∧ res.reviews.length = m.toNat ∧
      (cfg.include_raw = true → res.raw_reviews = some s.raw ∧ s.raw.length = m.toNat) := by
  obtain ⟨hl, hres⟩ := fetch_all_ok_elim sv cfg now fuel res s h
  have hexit := fetchLoop_ok_inv sv cfg fuel initState s (entryInv_init cfg) hl
  obtain ⟨e1, e2, e3, e4, e5, e6, e7, e8⟩ := hexit
  have hcap := e8 m hmax hm
  have hlen : (s.normalized.length : Int) = m := hcap.2 (le_of_lt hexceed)
  have hlenn : s.normalized.length = m.toNat := by omega
  subst hres
  refine ⟨hlenn, hlenn, ?_⟩
  intro hir
  constructor
  · show (if cfg.include_raw then some s.raw else Option.none) = some s.raw
    rw [if_pos hir]
  · rw [e3 hir]
    exact hlenn

/-- C4: within one invocation that returns normally, the issued requests
carry pairwise distinct cursors (in Python equality), and whenever the
cursor at the top of an iteration has already been seen the loop breaks at
once, issuing no further request. -/
theorem claim_C4_no_duplicate_requests (sv : Nat → HttpResponse) (cfg : Config)
    (now : String) (fuel : Nat) (res : FetchResult) (s : LoopState)
    (h : fetch_all_steam_reviews_for_app sv cfg now fuel = FetchOutcome.ok res s) :
    PairwiseFresh s.reqs ∧
      ∀ s0 : LoopState, pyMem s0.cursor s0.seen = true →
        loopBody sv cfg s0 =
          Sum.inl (LoopOutcome.ok { s0 with breakKind := some BreakKind.guard }) := by
  obtain ⟨hl, _⟩ := fetch_all_ok_elim sv cfg now fuel res s h
  have hexit := fetchLoop_ok_inv sv cfg fuel initState s (entryInv_init cfg) hl
  refine ⟨hexit.2.1, ?_⟩
  intro s0 hm
  unfold loopBody
  rw [if_pos hm]

/-- C8: in every normally terminating run, the recorded break kind relates
sleeps to issued requests: a loop-guard exit sleeps exactly once per issued
request (the guard iteration itself issues no request and performs no
delay), while empty-page and cap exits perform one sleep less than the
number of requests — i.e. the delay is skipped on the terminating iteration
and a cap break returns without a delay; a sleep happens only between a
non-terminating page append and the next fetch. -/
theorem claim_C8_delay_placement (sv : Nat → HttpResponse) (cfg : Config)
    (now : String) (fuel : Nat) (res : FetchResult) (s : LoopState)
    (h : fetch_all_steam_reviews_for_app sv cfg now fuel = FetchOutcome.ok res s) :
    (s.breakKind = some BreakKind.guard → s.sleeps = s.reqs.length) ∧
    (s.breakKind = some BreakKind.empty → s.sleeps + 1 = s.reqs.length) ∧
    (s.breakKind = some BreakKind.cap → s.sleeps + 1 = s.reqs.length) ∧
    (s.breakKind = some BreakKind.guard ∨ s.breakKind = some BreakKind.empty ∨
      s.breakKind = some BreakKind.cap) := by
  obtain ⟨hl, _⟩ := fetch_all_ok_elim sv cfg now fuel res s h
  have hexit := fetchLoop_ok_inv sv cfg fuel initState s (entryInv_init cfg) hl
  exact ⟨hexit.2.2.2.1, hexit.2.2.2.2.1, hexit.2.2.2.2.2.1, hexit.2.2.2.2.2.2.1⟩

/-- Mock transport: every page carries three records and next-cursor "A". -/
def svCap : Nat → HttpResponse := fun _ =>
  { status := 200, body := ""
  , payload := [("success", PyVal.int 1),
      ("reviews", PyVal.list [PyVal.int 1, PyVal.int 2, PyVal.int 3]),
      ("cursor", PyVal.str "A")] }

/-- Configuration with a cap of 2, raw inclusion, and no normalization. -/
def cfgCap : Config :=
  { appid := 1, include_raw := true, normalize := false, max_reviews := some 2 }

/-- Final loop state of the capped run: the full 3-record page was appended
(`appendedCount = 3`) and then truncated to the cap. -/
def sCap : LoopState :=
  { cursor := PyVal.str "A"
  , seen := [PyVal.str "*"]
  , normalized := [Entry.raw (PyVal.int 1), Entry.raw (PyVal.int 2)]
  , raw := [PyVal.int 1, PyVal.int 2]
  , reqs := [PyVal.str "*"]
  , sleeps := 0
  , appendedCount := 3
  , breakKind := some BreakKind.cap }

/-- C3 witness: a run over 3-record pages with cap 2 returns exactly 2
records and 2 raw records. -/
theorem claim_C3_cap_invariant_witness :
    fetch_all_steam_reviews_for_app svCap cfgCap "t" 6 =
        FetchOutcome.ok (assemble cfgCap "t" sCap) sCap ∧
      (assemble cfgCap "t" sCap).count = 2 ∧
      (assemble cfgCap "t" sCap).raw_reviews = some sCap.raw ∧ sCap.raw.length = 2 := by
  have hrun : fetch_all_steam_reviews_for_app svCap cfgCap "t" 6 =
      FetchOutcome.ok (assemble cfgCap "t" sCap) sCap := rfl
  have hc := claim_C3_cap_invariant svCap cfgCap "t" 6 _ _ 2 rfl (by decide) hrun (by decide)
  exact ⟨hrun, by simpa using hc.1, by simpa using hc.2.2 rfl⟩

/-- Mock transport: every page carries one record and repeats cursor "A". -/
def svGuard : Nat → HttpResponse := fun _ =>
  { status := 200, body := ""
  , payload := [("success", PyVal.int 1),
      ("reviews", PyVal.list [PyVal.dict []]),
      ("cursor", PyVal.str "A")] }

/-- Default configuration (normalization on, no raw, no cap). -/
def cfgPlain : Config := { appid := 1 }

/-- The normalization of an empty raw record: every field defaulted. -/
def nrDefault : NormalizedReview :=
  { recommendationid := "", steamid := "", language := PyVal.str ""
  , review := PyVal.str "", voted_up := false
  , timestamp_created := 0, timestamp_updated := 0
  , author_num_games_owned := 0, author_num_reviews := 0
  , author_playtime_forever := 0, author_playtime_last_two_weeks := 0
  , author_playtime_at_review := 0, votes_up := 0, votes_funny := 0
  , weighted_vote_score := "", comment_count := 0
  , steam_purchase := false, received_for_free := false
  , written_during_early_access := false }

/-- Final loop state of the repeated-cursor run: two pages were fetched,
then the repeat of cursor "A" fired the loop guard. -/
def sGuard : LoopState :=
  { cursor := PyVal.str "A"
  , seen := [PyVal.str "*", PyVal.str "A"]
  , normalized := [Entry.norm nrDefault, Entry.norm nrDefault]
  , raw := []
  , reqs := [PyVal.str "*", PyVal.str "A"]
  , sleeps := 2
  , appendedCount := 2
  , breakKind := some BreakKind.guard }

/-- C4 witness: the run against the cursor-repeating endpoint terminates by
loop guard after two requests with pairwise distinct cursors, keeping only
the records fetched before the repeat was detected. -/
theorem claim_C4_no_duplicate_requests_witness :
    fetch_all_steam_reviews_for_app svGuard cfgPlain "t" 6 =
        FetchOutcome.ok (assemble cfgPlain "t" sGuard) sGuard ∧
      PairwiseFresh sGuard.reqs ∧ sGuard.breakKind = some BreakKind.guard := by
  have hrun : fetch_all_steam_reviews_for_app svGuard cfgPlain "t" 6 =
      FetchOutcome.ok (assemble cfgPlain "t" sGuard) sGuard := rfl
  have hc := claim_C4_no_duplicate_requests svGuard cfgPlain "t" 6 _ _ hrun
  exact ⟨hrun, hc.1, rfl⟩

/-- Mock transport: a page with zero records and next-cursor "B". -/
def svEmpty : Nat → HttpResponse := fun _ =>
  { status := 200, body := ""
  , payload := [("success", PyVal.int 1), ("reviews", PyVal.list []),
      ("cursor", PyVal.str "B")] }

/-- Final loop state of the empty-page run. -/
def sEmpty : LoopState :=
  { cursor := PyVal.str "B"
  , seen := [PyVal.str "*"]
  , normalized := []
  , raw := []
  , reqs := [PyVal.str "*"]
  , sleeps := 0
  , appendedCount := 0
  , breakKind := some BreakKind.empty }

/-- C8 witness: the empty-page run issues one request, breaks without
sleeping (`sleeps + 1 = requests`), as the delay is skipped on the
terminating iteration. -/
theorem claim_C8_delay_placement_witness :
    fetch_all_steam_reviews_for_app svEmpty cfgPlain "t" 6 =
        FetchOutcome.ok (assemble cfgPlain "t" sEmpty) sEmpty ∧
      sEmpty.sleeps + 1 = sEmpty.reqs.length := by
  have hrun : fetch_all_steam_reviews_for_app svEmpty cfgPlain "t" 6 =
      FetchOutcome.ok (assemble cfgPlain "t" sEmpty) sEmpty := rfl
  have hc := claim_C8_delay_placement svEmpty cfgPlain "t" 6 _ _ hrun
  exact ⟨hrun, hc.2.1 rfl⟩

/-- C5: at any iteration (any reachable state), a fetched page whose
reviews field is a present empty list ends the loop normally at that page,
appends nothing to either collection, and leaves the final cursor equal to
that page's returned next-cursor value. -/
theorem claim_C5_empty_page (sv : Nat → HttpResponse) (cfg : Config) (fuel : Nat)
    (s : LoopState) (b : String) (p : Payload) (c : PyVal)
    (hresp : sv s.reqs.length = { status := 200, body := b, payload := p })
    (hguard : pyMem s.cursor s.seen = false)
    (hsucc : pyEq (dget p "success" PyVal.none) (PyVal.int 1) = true)
    (hempty : lookupField p "reviews" = some (PyVal.list []))
    (hcur : lookupField p "cursor" = some c) :
    ∃ sE, fetchLoop sv cfg (fuel + 1) s = LoopOutcome.ok sE ∧
      sE.normalized = s.normalized ∧ sE.raw = s.raw ∧ sE.cursor = c ∧
      sE.breakKind = some BreakKind.empty := by
  have hrev : dget p "reviews" PyVal.none = PyVal.list [] := by
    unfold dget; rw [hempty]
  have hnc : dget p "cursor" (reqState s).cursor = c := by
    unfold dget; rw [hcur]
  have hbody : loopBody sv cfg s =
      Sum.inl (LoopOutcome.ok
        { reqState s with cursor := c, breakKind := some BreakKind.empty }) := by
    unfold loopBody
    rw [hguard]
    simp only [Bool.false_eq_true, if_false]
    unfold handleResp
    rw [hresp]
    simp only
    rw [if_neg (by norm_num)]
    rw [hsucc]
    simp only [if_true]
    unfold handlePage
    rw [hrev, hnc]
    simp [pyOr, pyTruthy]
  refine ⟨{ reqState s with cursor := c, breakKind := some BreakKind.empty },
    ?_, rfl, rfl, rfl, rfl⟩
  unfold fetchLoop
  rw [hbody]

/-- C10: a successful page whose reviews field is absent or null is
treated exactly like an empty page: no exception, nothing appended, natural
loop termination; and when the cursor field is absent as well, the final
cursor stays the cursor used for this request. -/
theorem claim_C10_missing_reviews (sv : Nat → HttpResponse) (cfg : Config)
    (fuel : Nat) (s : LoopState) (b : String) (p : Payload)
    (hresp : sv s.reqs.length = { status := 200, body := b, payload := p })
    (hguard : pyMem s.cursor s.seen = false)
    (hsucc : pyEq (dget p "success" PyVal.none) (PyVal.int 1) = true)
    (hrev : lookupField p "reviews" = Option.none ∨
      lookupField p "reviews" = some PyVal.none) :
    ∃ sE, fetchLoop sv cfg (fuel + 1) s = LoopOutcome.ok sE ∧
      sE.normalized = s.normalized ∧ sE.raw = s.raw ∧
      sE.breakKind = some BreakKind.empty ∧
      (lookupField p "cursor" = Option.none → sE.cursor = s.cursor) := by
  have hrv : dget p "reviews" PyVal.none = PyVal.none := by
    unfold dget
    rcases hrev with h | h <;> rw [h]
  have hbody : loopBody sv cfg s =
      Sum.inl (LoopOutcome.ok
        { reqState s with
            cursor := dget p "cursor" (reqState s).cursor,
            breakKind := some BreakKind.empty }) := by
    unfold loopBody
    rw [hguard]
    simp only [Bool.false_eq_true, if_false]
    unfold handleResp
    rw [hresp]
    simp only
    rw [if_neg (by norm_num)]
    rw [hsucc]
    simp only [if_true]
    unfold handlePage
    rw [hrv]
    simp [pyOr, pyTruthy]
  refine ⟨{ reqState s with
      cursor := dget p "cursor" (reqState s).cursor,
      breakKind := some BreakKind.empty }, ?_, rfl, rfl, rfl, ?_⟩
  · unfold fetchLoop
    rw [hbody]
  · intro hnone
    show dget p "cursor" (reqState s).cursor = s.cursor
    unfold dget
    rw [hnone]
    rfl

/-- C7: a non-200 response raises `SteamReviewsError` (the spec's
`TransportError`) whose message is exactly the status code and the first 300
characters of the body, and a decoded payload whose success flag is not 1
raises `SteamReviewsError` (the spec's `UpstreamError`) whose message is
exactly the indicator's `str()` and the payload's `repr()`; in both cases
the loop result is the error, never a partial envelope. -/
theorem claim_C7_hard_failures (sv : Nat → HttpResponse) (cfg : Config)
    (fuel : Nat) (s : LoopState)
    (hguard : pyMem s.cursor s.seen = false) :
    (∀ st b p, sv s.reqs.length = { status := st, body := b, payload := p } →
      st ≠ 200 →
      fetchLoop sv cfg (fuel + 1) s =
          LoopOutcome.err (PyErr.steamReviewsError
            ("HTTP " ++ toString st ++ ": " ++ b.take 300)) (reqState s) ∧
        strContains ("HTTP " ++ toString st ++ ": " ++ b.take 300) (toString st) ∧
        strContains ("HTTP " ++ toString st ++ ": " ++ b.take 300) (b.take 300)) ∧
    (∀ b p, sv s.reqs.length = { status := 200, body := b, payload := p } →
      pyEq (dget p "success" PyVal.none) (PyVal.int 1) = false →
      fetchLoop sv cfg (fuel + 1) s =
          LoopOutcome.err (PyErr.steamReviewsError (upstreamErrMsg p)) (reqState s) ∧
        strContains (upstreamErrMsg p) (pyStr (dget p "success" PyVal.none)) ∧
        strContains (upstreamErrMsg p) (pyRepr (PyVal.dict p))) := by
  constructor
  · intro st b p hresp hne
    have hbody : loopBody sv cfg s =
        Sum.inl (LoopOutcome.err (PyErr.steamReviewsError
          ("HTTP " ++ toString st ++ ": " ++ b.take 300)) (reqState s)) := by
      unfold loopBody
      rw [hguard]
      simp only [Bool.false_eq_true, if_false]
      unfold handleResp
      rw [hresp]
      simp only
      rw [if_pos hne]
      rfl
    refine ⟨?_, ?_, ?_⟩
    · unfold fetchLoop
      rw [hbody]
    · exact ⟨"HTTP ", ": " ++ b.take 300, by rw [String.append_assoc]⟩
    · exact ⟨"HTTP " ++ toString st ++ ": ", "", by simp⟩
  · intro b p hresp hfail
    have hbody : loopBody sv cfg s =
        Sum.inl (LoopOutcome.err
          (PyErr.steamReviewsError (upstreamErrMsg p)) (reqState s)) := by
      unfold loopBody
      rw [hguard]
      simp only [Bool.false_eq_true, if_false]
      unfold handleResp
      rw [hresp]
      simp only
      rw [if_neg (by norm_num)]
      rw [hfail]
      simp only [Bool.false_eq_true, if_false]
    refine ⟨?_, ?_, ?_⟩
    · unfold fetchLoop
      rw [hbody]
    · exact ⟨"Steam returned success=", ": " ++ pyRepr (PyVal.dict p), by
        unfold upstreamErrMsg
        rw [String.append_assoc]⟩
    · exact ⟨"Steam returned success=" ++ pyStr (dget p "success" PyVal.none) ++ ": ", "", by
        unfold upstreamErrMsg
        simp⟩

/-- C6: a `num_per_page` outside [1, 100] makes the call fail immediately
with the bounds `ValueError` (the spec's `ConfigurationError`) in the
initial state — zero requests issued — and the outcome does not depend on
the transport at all. -/
theorem claim_C6_bounds_validation (sv : Nat → HttpResponse) (cfg : Config)
    (now : String) (fuel : Nat)
    (h : cfg.num_per_page < 1 ∨ 100 < cfg.num_per_page) :
    fetch_all_steam_reviews_for_app sv cfg now fuel =
        FetchOutcome.err
          (PyErr.valueError "num_per_page must be between 1 and 100") initState ∧
      initState.reqs = [] ∧
      (∀ sv2, fetch_all_steam_reviews_for_app sv2 cfg now fuel =
        fetch_all_steam_reviews_for_app sv cfg now fuel) := by
  have hnb : ¬(1 ≤ cfg.num_per_page ∧ cfg.num_per_page ≤ 100) := by omega
  refine ⟨?_, rfl, ?_⟩
  · unfold fetch_all_steam_reviews_for_app
    rw [if_neg hnb]
  · intro sv2
    unfold fetch_all_steam_reviews_for_app
    rw [if_neg hnb, if_neg hnb]

/-- C5 witness: a first page with an empty review list ends the run with no
records and final cursor "B", the page's returned next-cursor. -/
theorem claim_C5_empty_page_witness :
    ∃ sE, fetchLoop svEmpty cfgPlain 1 initState = LoopOutcome.ok sE ∧
      sE.normalized = initState.normalized ∧ sE.raw = initState.raw ∧
      sE.cursor = PyVal.str "B" ∧ sE.breakKind = some BreakKind.empty :=
  claim_C5_empty_page svEmpty cfgPlain 0 initState ""
    [("success", PyVal.int 1), ("reviews", PyVal.list []), ("cursor", PyVal.str "B")]
    (PyVal.str "B") rfl rfl rfl rfl rfl

/-- Mock transport: a successful payload with no reviews and no cursor
field at all. -/
def svBare : Nat → HttpResponse := fun _ =>
  { status := 200, body := "", payload := [("success", PyVal.int 1)] }

/-- C10 witness: a successful payload lacking the reviews and cursor fields
is treated as an empty page and keeps the request cursor. -/
theorem claim_C10_missing_reviews_witness :
    ∃ sE, fetchLoop svBare cfgPlain 1 initState = LoopOutcome.ok sE ∧
      sE.normalized = initState.normalized ∧ sE.raw = initState.raw ∧
      sE.breakKind = some BreakKind.empty ∧
      (lookupField [("success", PyVal.int 1)] "cursor" = Option.none →
        sE.cursor = initState.cursor) :=
  claim_C10_missing_reviews svBare cfgPlain 0 initState ""
    [("success", PyVal.int 1)] rfl rfl rfl (Or.inl rfl)

/-- Mock transport: HTTP 500 with body "oops". -/
def svHttpFail : Nat → HttpResponse := fun _ =>
  { status := 500, body := "oops", payload := [] }

/-- Mock transport: HTTP 200 whose payload signals success = 2. -/
def svUpstream : Nat → HttpResponse := fun _ =>
  { status := 200, body := "", payload := [("success", PyVal.int 2)] }

/-- C7 witness: the 500 response and the failing success flag each abort the
run with the corresponding `SteamReviewsError`. -/
theorem claim_C7_hard_failures_witness :
    fetchLoop svHttpFail cfgPlain 1 initState =
        LoopOutcome.err (PyErr.steamReviewsError
          ("HTTP " ++ toString 500 ++ ": " ++ ("oops".take 300))) (reqState initState) ∧
      fetchLoop svUpstream cfgPlain 1 initState =
        LoopOutcome.err (PyErr.steamReviewsError
          (upstreamErrMsg [("success", PyVal.int 2)])) (reqState initState) := by
  have h1 := (claim_C7_hard_failures svHttpFail cfgPlain 0 initState rfl).1
    500 "oops" [] rfl (by decide)
  have h2 := (claim_C7_hard_failures svUpstream cfgPlain 0 initState rfl).2
    "" [("success", PyVal.int 2)] rfl (by decide)
  exact ⟨h1.1, h2.1⟩

/-- Out-of-bounds configuration: zero records per page. -/
def cfgBad0 : Config := { appid := 1, num_per_page := 0 }

/-- Out-of-bounds configuration: 101 records per page. -/
def cfgBad101 : Config := { appid := 1, num_per_page := 101 }

/-- C6 witness: `num_per_page` 0 and 101 both fail with the bounds error
before any request, independently of the transport. -/
theorem claim_C6_bounds_validation_witness :
    fetch_all_steam_reviews_for_app svEmpty cfgBad0 "t" 5 =
        FetchOutcome.err
          (PyErr.valueError "num_per_page must be between 1 and 100") initState ∧
      fetch_all_steam_reviews_for_app svEmpty cfgBad101 "t" 5 =
        FetchOutcome.err
          (PyErr.valueError "num_per_page must be between 1 and 100") initState ∧
      initState.reqs = [] ∧
      fetch_all_steam_reviews_for_app svCap cfgBad0 "t" 5 =
        fetch_all_steam_reviews_for_app svEmpty cfgBad0 "t" 5 := by
  have h0 := claim_C6_bounds_validation svEmpty cfgBad0 "t" 5 (Or.inl (by decide))
  have h101 := claim_C6_bounds_validation svEmpty cfgBad101 "t" 5 (Or.inr (by decide))
  exact ⟨h0.1, h101.1, h0.2.1, h0.2.2 svCap⟩
